import Mathlib

/-!
# ElevoSandbox — verification of the sandbox runtime control plane

Shallow embedding of the server's agent connection pool, sandbox store,
process/PTY service facades, the lifecycle orchestrator tail, and the
in-sandbox agent runtime (connection manager, process handler, PTY manager),
translated from the Rust sources under `src/server` and `src/agent`.

Concurrency is modelled by making every environment interaction explicit:
the outcome of an `mpsc` send, the way an awaited `oneshot` resolves, and the
sequence of connection-attempt results are parameters of the embedded
functions, so each code path of the source is a branch of a total function.
-/

namespace ElevoSandbox

/-- Server error kinds (`src/server/src/error.rs`), restricted to the
variants the verified components construct. -/
inductive Error where
  | sandboxNotFound (id : String)
  | invalidSandboxState (expected actual : String)
  | agentNotConnected (id : String)
  | agentCommunicationError (msg : String)
  | agentConnectionTimeout
  | processTimeout
  | processExecutionFailed (msg : String)
  | internal (msg : String)
  deriving DecidableEq, Repr

/-- `SandboxState` (`src/server/src/domain/sandbox.rs`). -/
inductive SandboxState where
  | starting
  | running
  | stopping
  | stopped
  | error
  deriving DecidableEq, Repr

/-- `SandboxState::as_str`. -/
def SandboxState.as_str : SandboxState → String
  | .starting => "starting"
  | .running => "running"
  | .stopping => "stopping"
  | .stopped => "stopped"
  | .error => "error"

/-- `SandboxState::from_str`. -/
def SandboxState.from_str : String → Option SandboxState
  | "starting" => some .starting
  | "running" => some .running
  | "stopping" => some .stopping
  | "stopped" => some .stopped
  | "error" => some .error
  | _ => none

/-- The `valid_transition` match inside `Sandbox::transition_to`
(`src/server/src/domain/sandbox.rs`, lines 117-138). -/
def SandboxState.valid_transition : SandboxState → SandboxState → Bool
  | .starting, .running => true
  | .starting, .error => true
  | .running, .stopping => true
  | .running, .error => true
  | .stopping, .stopped => true
  | .stopping, .error => true
  | _, _ => false

/-- `Sandbox::transition_to`: mutates the state only when the transition is
valid and reports whether it was; modelled as (accepted, resulting state). -/
def SandboxState.transition_to (current new_state : SandboxState) :
    Bool × SandboxState :=
  if current.valid_transition new_state then (true, new_state)
  else (false, current)

/-- A sandbox row as `update_state` touches it: id, state, error message
(`src/server/src/infra/sqlite.rs`). -/
structure SandboxRow where
  id : String
  state : SandboxState
  errorMessage : Option String
  deriving DecidableEq, Repr

/-- `SandboxRepository::update_state` (`src/server/src/infra/sqlite.rs`,
lines 192-214): one SQL UPDATE setting `state` and `error_message` on the row
whose id matches, then a `rows_affected == 0` check that yields
`SandboxNotFound`.  The UPDATE carries no predicate on the current state. -/
def SandboxRepository.update_state (db : List SandboxRow) (id : String)
    (st : SandboxState) (err : Option String) : Except Error (List SandboxRow) :=
  if db.any (fun r => r.id = id) then
    .ok (db.map (fun r =>
      if r.id = id then { r with state := st, errorMessage := err } else r))
  else
    .error (.sandboxNotFound id)

/-- `AgentCommandResponse` (`src/server/src/infra/agent_pool.rs`, lines 18-26). -/
structure AgentCommandResponse where
  correlation_id : String
  success : Bool
  exit_code : Option Int
  stdout : Option String
  stderr : Option String
  error_message : Option String
  deriving DecidableEq, Repr

/-- `AgentConnPool` state: `connections` maps a sandbox id to its connection
(whose observable field here is `last_heartbeat`, an instant in ms), and
`pending_requests` is the set of correlation ids holding a live oneshot
sender (`src/server/src/infra/agent_pool.rs`, lines 76-90).  `DashMap`s are
modelled as association lists with unique keys maintained by the operations. -/
structure AgentConnPool where
  connections : List (String × Nat)
  pending_requests : List String
  response_timeout_ms : Nat
  deriving DecidableEq, Repr

/-- `DEFAULT_RESPONSE_TIMEOUT` = 30 s, in milliseconds. -/
def DEFAULT_RESPONSE_TIMEOUT_MS : Nat := 30000

namespace AgentConnPool

/-- `AgentConnPool::new`. -/
def new : AgentConnPool :=
  { connections := [], pending_requests := [],
    response_timeout_ms := DEFAULT_RESPONSE_TIMEOUT_MS }

/-- `AgentConnPool::register`: inserts (replacing any entry for the id) a
connection stamped with `last_heartbeat = now`. -/
def register (pool : AgentConnPool) (sandbox_id : String) (now : Nat) :
    AgentConnPool :=
  { pool with connections :=
      (sandbox_id, now) :: pool.connections.filter (fun c => c.1 ≠ sandbox_id) }

/-- `AgentConnPool::unregister` (lines 126-130): removes the connection entry
for the id — and nothing else.  `pending_requests` is not touched and no
message or error is delivered to any waiter. -/
def unregister (pool : AgentConnPool) (sandbox_id : String) : AgentConnPool :=
  { pool with connections :=
      pool.connections.filter (fun c => c.1 ≠ sandbox_id) }

/-- `AgentConnPool::is_connected`. -/
def is_connected (pool : AgentConnPool) (sandbox_id : String) : Bool :=
  pool.connections.any (fun c => c.1 = sandbox_id)

/-- The deadline chosen at `src/server/src/infra/agent_pool.rs` lines
215-219: the caller's `timeout_ms` when positive, else the pool's
`response_timeout` (30 s for a pool built by `new`). -/
def response_deadline_ms (pool : AgentConnPool) (timeout_ms : Nat) : Nat :=
  if timeout_ms > 0 then timeout_ms else pool.response_timeout_ms

/-- How the awaited `oneshot` receiver resolves inside
`timeout(response_timeout, response_rx)`: the three arms of the match at
lines 221-234. -/
inductive AwaitOutcome where
  | delivered (r : AgentCommandResponse)
  | channelClosed
  | deadlineElapsed
  deriving DecidableEq, Repr

/-- `AgentConnPool::run_command` (lines 177-235).  `cid` stands for the
freshly generated `Uuid::new_v4` correlation id; `send_ok` is the outcome of
`conn.tx.send(msg)`; `outcome` is how the await resolves.  Every path mirrors
the source: not-connected short-circuits before arming; the armed entry is
removed on send failure, on delivery, on a closed channel, and on deadline
expiry. -/
def run_command (pool : AgentConnPool) (sandbox_id cid : String)
    (send_ok : Bool) (outcome : AwaitOutcome) :
    Except Error AgentCommandResponse × AgentConnPool :=
  if pool.is_connected sandbox_id then
    let armed : AgentConnPool :=
      { pool with pending_requests :=
          cid :: pool.pending_requests.filter (fun c => c ≠ cid) }
    let disarmed : AgentConnPool :=
      { armed with pending_requests :=
          armed.pending_requests.filter (fun c => c ≠ cid) }
    if send_ok then
      match outcome with
      | .delivered r => (.ok r, disarmed)
      | .channelClosed =>
          (.error (.agentCommunicationError "Response channel closed"), disarmed)
      | .deadlineElapsed => (.error .processTimeout, disarmed)
    else
      (.error (.agentCommunicationError "Failed to send command"), disarmed)
  else
    (.error (.agentNotConnected sandbox_id), pool)

/-- `AgentConnPool::handle_internal_response` (lines 385-392): remove the
pending entry and deliver through it; when no entry exists, warn-log and drop
the payload.  Returns (pool, delivered payload if any, warned). -/
def handle_internal_response (pool : AgentConnPool)
    (r : AgentCommandResponse) : AgentConnPool × Option AgentCommandResponse × Bool :=
  if pool.pending_requests.contains r.correlation_id then
    ({ pool with pending_requests :=
        pool.pending_requests.filter (fun c => c ≠ r.correlation_id) },
     some r, false)
  else
    (pool, none, true)

/-- `AgentConnPool::send_heartbeat_ack` (lines 161-174): requires a
connection, stamps `last_heartbeat = now`, then sends `HeartbeatAck` carrying
the given timestamp.  Returns the updated pool and the ack timestamp. -/
def send_heartbeat_ack (pool : AgentConnPool) (sandbox_id : String)
    (now ts : Nat) (send_ok : Bool) : Except Error (AgentConnPool × Nat) :=
  if pool.is_connected sandbox_id then
    let stamped : AgentConnPool :=
      { pool with connections := pool.connections.map (fun c =>
          if c.1 = sandbox_id then (c.1, now) else c) }
    if send_ok then .ok (stamped, ts)
    else .error (.agentCommunicationError "Failed to send message")
  else
    .error (.agentNotConnected sandbox_id)

/-- `AgentConnPool::create_pty` (lines 257-284): requires a connection,
generates a correlation id that is put into the message but is NOT inserted
into `pending_requests`, sends `CreatePty`, and returns as soon as the send
succeeds — there is no await of any agent acknowledgment. -/
def create_pty (pool : AgentConnPool) (sandbox_id : String)
    (send_ok : Bool) : Except Error Unit × AgentConnPool :=
  if pool.is_connected sandbox_id then
    if send_ok then (.ok (), pool)
    else (.error (.agentCommunicationError "Failed to send message"), pool)
  else
    (.error (.agentNotConnected sandbox_id), pool)

/-- `AgentConnPool::wait_for_connection` (lines 395-407): poll
`is_connected` every 100 ms until the timeout budget is spent; here the
connectivity at each successive poll is the predicate `conn`, and `polls`
bounds the number of checks the elapsed-time guard allows. -/
def wait_for_connection (conn : Nat → Bool) : Nat → Except Error Unit
  | 0 => .error .agentConnectionTimeout
  | polls + 1 =>
      if conn 0 then .ok ()
      else wait_for_connection (fun k => conn (k + 1)) polls

end AgentConnPool

/-- Inbound (agent→server) messages of the wire union that the endpoint's
main loop dispatches on (`src/server/src/api/grpc/mod.rs`, lines 116-149). -/
inductive AgentMsg where
  | heartbeat (timestamp : Nat)
  | commandResponse (r : AgentCommandResponse)
  | ptyOutput (pty_id : String) (bytes : Nat)
  | handshake (sandbox_id : String)
  deriving DecidableEq, Repr

/-- Outbound (server→agent) messages the endpoint loop emits. -/
inductive ServerMsg where
  | handshakeAck (success : Bool) (err : Option String)
  | heartbeatAck (timestamp : Nat)
  deriving DecidableEq, Repr

namespace AgentServiceImpl

/-- One iteration of the endpoint's inbound loop
(`src/server/src/api/grpc/mod.rs`, lines 116-149), for a connection already
registered under `sandbox_id`.  Returns (pool, replies pushed to the wire,
payload delivered to a waiter if any, warned).  The `Heartbeat` arm builds
`ServerHeartbeatAck` with the received timestamp and sends it directly on
`tx_clone`; it performs no call into the pool, so `last_heartbeat` is left
as it was.  `CommandResponse` goes to `handle_response`, whose pending-map
behaviour is the same as `handle_internal_response`.  `PtyOutput` is
debug-logged and dropped; anything else warn-logs. -/
def handle_inbound (pool : AgentConnPool) (msg : AgentMsg) :
    AgentConnPool × List ServerMsg × Option AgentCommandResponse × Bool :=
  match msg with
  | .heartbeat ts => (pool, [.heartbeatAck ts], none, false)
  | .commandResponse r =>
      let (pool1, delivered, warned) := pool.handle_internal_response r
      (pool1, [], delivered, warned)
  | .ptyOutput _ _ => (pool, [], none, false)
  | .handshake _ => (pool, [], none, true)

/-- The teardown after the endpoint's inbound loop ends — by EOF
(`inbound.next()` returning `None`) or by a stream error breaking the loop
(`src/server/src/api/grpc/mod.rs`, lines 156-160): the only effect is
`agent_pool.unregister(&sandbox_id)`. -/
def connection_teardown (pool : AgentConnPool) (sandbox_id : String) :
    AgentConnPool :=
  pool.unregister sandbox_id

end AgentServiceImpl

namespace ProcessService

/-- `ProcessService::run` (`src/server/src/service/process.rs`, lines
46-82): look the sandbox up (a miss is the store's `SandboxNotFound`), demand
state Running, demand a registered agent connection, and only then call
`agent_pool.run_command`, which arms `cid` and sends the `RunCommand`
message. -/
def run (db : List SandboxRow) (pool : AgentConnPool) (sandbox_id cid : String)
    (send_ok : Bool) (outcome : AgentConnPool.AwaitOutcome) :
    Except Error AgentCommandResponse × AgentConnPool :=
  match db.find? (fun r => r.id = sandbox_id) with
  | none => (.error (.sandboxNotFound sandbox_id), pool)
  | some sandbox =>
      if sandbox.state ≠ .running then
        (.error (.invalidSandboxState "running" sandbox.state.as_str), pool)
      else if ¬ pool.is_connected sandbox_id then
        (.error (.agentNotConnected sandbox_id), pool)
      else
        pool.run_command sandbox_id cid send_ok outcome

end ProcessService

/-- `PtyOptions` (`src/server/src/domain/types.rs`). -/
structure PtyOptions where
  cols : Option Nat
  rows : Option Nat
  shell : Option String
  deriving DecidableEq, Repr

/-- `PtyInfo` (`src/server/src/domain/types.rs`). -/
structure PtyInfo where
  id : String
  sandbox_id : String
  cols : Nat
  rows : Nat
  deriving DecidableEq, Repr

namespace PtyService

/-- `PtyService::create` (`src/server/src/service/pty.rs`, lines 27-69):
the same three guards as `ProcessService::run`, then a fresh UUID `pty_id`,
`cols`/`rows` defaulted to 80×24, a `create_pty` send — and an immediate
return of the `PtyInfo`: nothing is armed in `pending_requests` and no agent
acknowledgment is awaited. -/
def create (db : List SandboxRow) (pool : AgentConnPool)
    (sandbox_id pty_id : String) (opts : PtyOptions) (send_ok : Bool) :
    Except Error PtyInfo × AgentConnPool :=
  match db.find? (fun r => r.id = sandbox_id) with
  | none => (.error (.sandboxNotFound sandbox_id), pool)
  | some sandbox =>
      if sandbox.state ≠ .running then
        (.error (.invalidSandboxState "running" sandbox.state.as_str), pool)
      else if ¬ pool.is_connected sandbox_id then
        (.error (.agentNotConnected sandbox_id), pool)
      else
        let cols := opts.cols.getD 80
        let rows := opts.rows.getD 24
        match pool.create_pty sandbox_id send_ok with
        | (.ok _, pool1) =>
            (.ok { id := pty_id, sandbox_id := sandbox_id,
                   cols := cols, rows := rows }, pool1)
        | (.error e, pool1) => (.error e, pool1)

end PtyService

/-- `default_agent_timeout` (`src/server/src/config.rs`): seconds the
orchestrator waits for the agent to attach. -/
def default_agent_timeout : Nat := 30

namespace SandboxService

/-- The tail of `SandboxService::create` after the container started
(`src/server/src/service/sandbox.rs`, lines 148-173): wait for the agent
under the configured budget, then persist Starting→Running in BOTH arms —
the `Err` arm only adds a warning, it never writes `Error`.  Returns the
store update result and whether the timeout warning was logged. -/
def create_after_start (db : List SandboxRow) (sandbox_id : String)
    (wait_result : Except Error Unit) :
    Except Error (List SandboxRow) × Bool :=
  match wait_result with
  | .ok _ =>
      (SandboxRepository.update_state db sandbox_id .running none, false)
  | .error _ =>
      (SandboxRepository.update_state db sandbox_id .running none, true)

end SandboxService

/-- `ProcessOutput` (`src/unified-workspace-sdk/agent/src/handlers/process.rs`,
lines 11-17). -/
inductive ProcessOutput where
  | stdoutLine (line : String)
  | stderrLine (line : String)
  | exitCode (code : Int)
  | errorEvent (msg : String)
  deriving DecidableEq, Repr

/-- What the spawned child does when `cmd.spawn()` succeeds: the line events
its reader tasks emit (stdout/stderr interleaved as observed) and its exit
status code. -/
structure SpawnedChild where
  lineEvents : List ProcessOutput
  exit_code : Int
  deriving DecidableEq, Repr

namespace ProcessHandler

/-- `process::run_command`
(`src/unified-workspace-sdk/agent/src/handlers/process.rs`, lines 20-74):
on a spawn error (`cmd.spawn()?`) it returns `Err` having sent nothing on
`output_tx`; on success the reader tasks send the line events, then
`Exit(exit_code)` is sent and `Ok(())` returned.  Result: (events sent on
the channel, the function's own `Result`). -/
def run_command (spawn : Except String SpawnedChild) :
    List ProcessOutput × Except String Unit :=
  match spawn with
  | .error e => ([], .error e)
  | .ok child => (child.lineEvents ++ [.exitCode child.exit_code], .ok ())

/-- The accumulator loop of `ConnectionManager::handle_run_command`
(`src/agent/src/connection.rs`, lines 422-440): `exit_code` starts at 0,
stdout/stderr lines are appended each with a trailing newline.  The
`Error` variant of `ProcessOutput` is never constructed by `run_command`,
so the loop observes only the three arms it matches. -/
def collect_output (events : List ProcessOutput) : Int × String × String :=
  events.foldl (fun acc ev =>
    match ev with
    | .stdoutLine line => (acc.1, acc.2.1 ++ line ++ "\n", acc.2.2)
    | .stderrLine line => (acc.1, acc.2.1, acc.2.2 ++ line ++ "\n")
    | .exitCode code => (code, acc.2.1, acc.2.2)
    | .errorEvent _ => acc) (0, "", "")

/-- `ConnectionManager::handle_run_command` (`src/agent/src/connection.rs`,
lines 404-443): spawns a task running `process::run_command` whose `Result`
is discarded (`let _ = …`), drains the channel, and returns
`Ok((exit_code, stdout, stderr))` — unconditionally `Ok`, whatever the
spawned task's fate. -/
def handle_run_command (spawn : Except String SpawnedChild) :
    Except String (Int × String × String) :=
  let events := (run_command spawn).1
  .ok (collect_output events)

end ProcessHandler

/-- The payload of a `CommandResponse` the agent sends back
(`agent_command_response::Result` in the wire schema). -/
inductive CmdResult where
  | success (exit_code : Int) (stdout stderr : String)
  | failure (code : Int) (message : String)
  deriving DecidableEq, Repr

namespace ConnectionManager

/-- The `RunCommand` dispatch arm (`src/agent/src/connection.rs`, lines
179-216): `Ok((code, out, err))` from `handle_run_command` becomes
`CommandResponse.Success`; `Err(e)` would become
`CommandResponse.Error{code: 1, message: e}`. -/
def dispatch_run_command (spawn : Except String SpawnedChild) : CmdResult :=
  match ProcessHandler.handle_run_command spawn with
  | .ok (code, out, err) => .success code out err
  | .error e => .failure 1 e

/-- `RECONNECT_INITIAL_DELAY` in ms (`src/agent/src/connection.rs`, line 29). -/
def RECONNECT_INITIAL_DELAY_MS : Nat := 1000

/-- `RECONNECT_MAX_DELAY` in ms (`src/agent/src/connection.rs`, line 30). -/
def RECONNECT_MAX_DELAY_MS : Nat := 60000

/-- The backoff update after a failed attempt (`src/agent/src/connection.rs`,
lines 78-81): `reconnect_delay = min(reconnect_delay * 2, RECONNECT_MAX_DELAY)`. -/
def next_reconnect_delay (d : Nat) : Nat :=
  min (d * 2) RECONNECT_MAX_DELAY_MS

/-- An event the `tokio::select!` in `ConnectionManager::run` observes:
`connect_and_run` finishing with `Ok` (which happens exactly when the inbound
loop ends on EOF, line 175 falling through to line 400), finishing with
`Err` (handshake/stream failure), or the external shutdown signal. -/
inductive LoopEvent where
  | attemptEof
  | attemptErr
  | shutdown
  deriving DecidableEq, Repr

/-- `ConnectionManager::run` (`src/agent/src/connection.rs`, lines 55-93),
driven by a finite trace of loop events.  Returns the list of backoff delays
slept before reconnect attempts, in order.  `Ok` (EOF) hits the
`info!("Connection closed normally")` arm and BREAKS the loop — no
reconnect; `Err` sleeps the current delay and doubles it under the cap;
shutdown breaks. -/
def run : List LoopEvent → Nat → List Nat
  | [], _ => []
  | .attemptEof :: _, _ => []
  | .shutdown :: _, _ => []
  | .attemptErr :: rest, d => d :: run rest (next_reconnect_delay d)

/-- End-of-attempt bookkeeping inside `connect_and_run`: the EOF path falls
through to lines 396-400, aborting the heartbeat task before returning `Ok`;
an error path returns early through `?`, skipping that abort (the heartbeat
task then dies only when its channel closes).  Returns
(heartbeat aborted here, returned Ok). -/
def connect_and_run_end : LoopEvent → Bool × Bool
  | .attemptEof => (true, true)
  | .attemptErr => (false, false)
  | .shutdown => (false, false)

end ConnectionManager

/-- The agent-side `PtyManager` (`src/agent/src/handlers/pty.rs`): the map
of live PTY ids and the configured cap.  `ConnectionManager::new` builds it
with `max_ptys = 16`. -/
structure PtyManager where
  ptys : List String
  max_ptys : Nat
  deriving DecidableEq, Repr

namespace PtyManager

/-- `PtyManager::new`. -/
def new (max_ptys : Nat) : PtyManager := { ptys := [], max_ptys := max_ptys }

/-- `PtyManager::create` (`src/agent/src/handlers/pty.rs`, lines 33-71):
under the write lock, bail with "Maximum number of PTYs reached" when the map
is at the cap — before anything is opened or inserted.  Otherwise openpty +
spawn (outcome `spawn`), and only on success insert the id.  Returns the
result and the resulting map. -/
def create (m : PtyManager) (id : String) (spawn : Except String Unit) :
    Except String Unit × PtyManager :=
  if m.ptys.length ≥ m.max_ptys then
    (.error "Maximum number of PTYs reached", m)
  else
    match spawn with
    | .error e => (.error e, m)
    | .ok _ => (.ok (), { m with ptys := m.ptys ++ [id] })

end PtyManager

/-! ## Claim C2 — store-level transition validation -/

/-- Claim C2 counterexample: Stopped→Running is outside the allowed
transition set, yet `update_state` persists it: on a store holding one row
in state Stopped, requesting Running succeeds and rewrites the row — the
out-of-order transition is not rejected and the row does not stay
unchanged. -/
theorem C2_counterexample :
    SandboxState.valid_transition .stopped .running = false ∧
    SandboxRepository.update_state
        [{ id := "s1", state := .stopped, errorMessage := none }]
        "s1" .running none =
      .ok [{ id := "s1", state := .running, errorMessage := none }] := by
  exact ⟨rfl, rfl⟩

/-- Claim C2 as amended: `update_state` performs no transition validation.
Whenever a row with the id exists it unconditionally overwrites that row's
state and error message and returns Ok — including for pairs outside the
allowed set — and it returns `SandboxNotFound` exactly when no row matches;
the allowed-set check lives only in `Sandbox::transition_to`, which the
store does not consult. -/
theorem C2_update_state_unvalidated (db : List SandboxRow) (id : String)
    (st : SandboxState) (err : Option String) :
    ((db.any fun r => r.id = id) = true →
      ∃ db', SandboxRepository.update_state db id st err = .ok db' ∧
        ∀ r ∈ db', r.id = id → r.state = st ∧ r.errorMessage = err) ∧
    ((db.any fun r => r.id = id) = false →
      SandboxRepository.update_state db id st err =
        .error (.sandboxNotFound id)) := by
  constructor
  · intro h
    refine ⟨db.map (fun r =>
      if r.id = id then { r with state := st, errorMessage := err } else r),
      ?_, ?_⟩
    · unfold SandboxRepository.update_state
      rw [if_pos h]
    · intro r hr hid
      rcases List.mem_map.mp hr with ⟨r0, _, hmap⟩
      by_cases h0 : r0.id = id
      · simp only [h0, if_pos rfl] at hmap
        subst hmap
        exact ⟨rfl, rfl⟩
      · simp only [if_neg h0] at hmap
        subst hmap
        exact absurd hid h0
  · intro h
    unfold SandboxRepository.update_state
    rw [if_neg (by simp [h])]

/-- Claim C2 witness: the amended theorem applied to a one-row store (any
requested state is written) and to the empty store (`SandboxNotFound`). -/
theorem C2_update_state_unvalidated_witness :
    (∃ db', SandboxRepository.update_state
        [{ id := "s1", state := .stopped, errorMessage := none }]
        "s1" .running none = .ok db' ∧
      ∀ r ∈ db', r.id = "s1" → r.state = .running ∧ r.errorMessage = none) ∧
    SandboxRepository.update_state [] "s1" .running none =
      .error (.sandboxNotFound "s1") :=
  ⟨(C2_update_state_unvalidated
      [{ id := "s1", state := .stopped, errorMessage := none }]
      "s1" .running none).1 (by decide),
   (C2_update_state_unvalidated [] "s1" .running none).2 (by decide)⟩

/-! ## Claim C5 — Process Service guard order -/

/-- Claim C5: `ProcessService::run` returns `SandboxNotFound` when the id is
not in the store; `InvalidSandboxState` when the stored sandbox is not
Running; `AgentNotConnected` when the registry lacks a connection; and only
when all three checks pass does it invoke `run_command`, which sends the
`RunCommand` to the agent. -/
theorem C5_process_run_guards (db : List SandboxRow) (pool : AgentConnPool)
    (sid cid : String) (send_ok : Bool) (oc : AgentConnPool.AwaitOutcome) :
    ((db.find? fun r => r.id = sid) = none →
      ProcessService.run db pool sid cid send_ok oc =
        (.error (.sandboxNotFound sid), pool)) ∧
    (∀ row, (db.find? fun r => r.id = sid) = some row → row.state ≠ .running →
      ProcessService.run db pool sid cid send_ok oc =
        (.error (.invalidSandboxState "running" row.state.as_str), pool)) ∧
    (∀ row, (db.find? fun r => r.id = sid) = some row → row.state = .running →
      pool.is_connected sid = false →
      ProcessService.run db pool sid cid send_ok oc =
        (.error (.agentNotConnected sid), pool)) ∧
    (∀ row, (db.find? fun r => r.id = sid) = some row → row.state = .running →
      pool.is_connected sid = true →
      ProcessService.run db pool sid cid send_ok oc =
        pool.run_command sid cid send_ok oc) := by
  refine ⟨?_, ?_, ?_, ?_⟩
  · intro h
    unfold ProcessService.run
    rw [h]
  · intro row hrow hst
    unfold ProcessService.run
    rw [hrow]
    simp [hst]
  · intro row hrow hst hconn
    unfold ProcessService.run
    rw [hrow]
    simp [hst, hconn]
  · intro row hrow hst hconn
    unfold ProcessService.run
    rw [hrow]
    simp [hst, hconn]

/-- Claim C5 witness: each of the four guard outcomes observed on concrete
stores and pools, obtained from the guard theorem. -/
theorem C5_process_run_guards_witness :
    ProcessService.run [] AgentConnPool.new "S1" "c1" true .channelClosed =
      (.error (.sandboxNotFound "S1"), AgentConnPool.new) ∧
    ProcessService.run [{ id := "S1", state := .starting, errorMessage := none }]
        AgentConnPool.new "S1" "c1" true .channelClosed =
      (.error (.invalidSandboxState "running" "starting"), AgentConnPool.new) ∧
    ProcessService.run [{ id := "S1", state := .running, errorMessage := none }]
        AgentConnPool.new "S1" "c1" true .channelClosed =
      (.error (.agentNotConnected "S1"), AgentConnPool.new) ∧
    ProcessService.run [{ id := "S1", state := .running, errorMessage := none }]
        (AgentConnPool.new.register "S1" 0) "S1" "c1" true .channelClosed =
      (AgentConnPool.new.register "S1" 0).run_command "S1" "c1" true .channelClosed :=
  ⟨(C5_process_run_guards [] AgentConnPool.new "S1" "c1" true .channelClosed).1
      (by decide),
   (C5_process_run_guards [{ id := "S1", state := .starting, errorMessage := none }]
      AgentConnPool.new "S1" "c1" true .channelClosed).2.1
      { id := "S1", state := .starting, errorMessage := none } (by decide) (by decide),
   (C5_process_run_guards [{ id := "S1", state := .running, errorMessage := none }]
      AgentConnPool.new "S1" "c1" true .channelClosed).2.2.1
      { id := "S1", state := .running, errorMessage := none } (by decide) rfl (by decide),
   (C5_process_run_guards [{ id := "S1", state := .running, errorMessage := none }]
      (AgentConnPool.new.register "S1" 0) "S1" "c1" true .channelClosed).2.2.2
      { id := "S1", state := .running, errorMessage := none } (by decide) rfl (by decide)⟩

/-! ## Claim C10 — no pending-request leak from run_command -/

/-- Claim C10: for a fresh correlation id (as `Uuid::new_v4` yields), every
exit path of `AgentConnPool::run_command` — delivery, send failure, closed
response channel, deadline expiry, and the not-connected short-circuit —
leaves `pending_requests` exactly as it was before the call: the armed entry
never leaks. -/
theorem C10_run_command_no_leak (pool : AgentConnPool) (sid cid : String)
    (send_ok : Bool) (oc : AgentConnPool.AwaitOutcome)
    (hfresh : cid ∉ pool.pending_requests) :
    (pool.run_command sid cid send_ok oc).2.pending_requests =
      pool.pending_requests := by
  have hall : ∀ a ∈ pool.pending_requests, ¬ a = cid := by
    intro a ha h
    exact hfresh (h ▸ ha)
  unfold AgentConnPool.run_command
  by_cases hc : pool.is_connected sid
  · cases send_ok with
    | false => simpa [hc] using hall
    | true => cases oc <;> simpa [hc] using hall
  · simp [hc]

/-- Claim C10 witness: a registered pool with an empty pending map, run
through the deadline-expiry exit path, ends with an empty pending map. -/
theorem C10_run_command_no_leak_witness :
    ((AgentConnPool.new.register "S1" 0).run_command "S1" "c1" true
        .deadlineElapsed).2.pending_requests =
      (AgentConnPool.new.register "S1" 0).pending_requests :=
  C10_run_command_no_leak (AgentConnPool.new.register "S1" 0) "S1" "c1" true
    .deadlineElapsed (by decide)

/-! ## Claim C4 — RPC deadlines and late responses -/

/-- Claim C4: the await deadline is the caller's `timeout_ms` when positive
and the 30 s default otherwise; when the deadline elapses the pending slot
is removed and the caller gets `ProcessTimeout`; and a response whose
correlation id is no longer pending is dropped with only a warning — the
pool is unchanged and nothing is delivered. -/
theorem C4_deadline_and_late_response :
    (∀ (pool : AgentConnPool) (t : Nat), 0 < t →
      pool.response_deadline_ms t = t) ∧
    (AgentConnPool.new.response_deadline_ms 0 = 30000) ∧
    (∀ (pool : AgentConnPool) (sid cid : String),
      pool.is_connected sid = true →
      (pool.run_command sid cid true .deadlineElapsed).1 =
          .error .processTimeout ∧
        cid ∉ (pool.run_command sid cid true .deadlineElapsed).2.pending_requests) ∧
    (∀ (pool : AgentConnPool) (r : AgentCommandResponse),
      r.correlation_id ∉ pool.pending_requests →
      pool.handle_internal_response r = (pool, none, true)) := by
  refine ⟨?_, by decide, ?_, ?_⟩
  · intro pool t ht
    unfold AgentConnPool.response_deadline_ms
    rw [if_pos ht]
  · intro pool sid cid hc
    constructor
    · simp [AgentConnPool.run_command, hc]
    · intro hmem
      simp only [AgentConnPool.run_command, hc, if_true] at hmem
      have := List.of_mem_filter hmem
      simp at this
  · intro pool r hnot
    unfold AgentConnPool.handle_internal_response
    rw [if_neg (by simpa using hnot)]

/-- Claim C4 witness: the deadline rule at 2000 ms and at 0 ms, a concrete
deadline expiry removing the slot, and a late response on an empty pending
map being dropped with a warning. -/
theorem C4_deadline_and_late_response_witness :
    AgentConnPool.new.response_deadline_ms 2000 = 2000 ∧
    AgentConnPool.new.response_deadline_ms 0 = 30000 ∧
    ((AgentConnPool.new.register "S1" 0).run_command "S1" "c1" true
        .deadlineElapsed).1 = .error .processTimeout ∧
    AgentConnPool.new.handle_internal_response
        { correlation_id := "c9", success := true, exit_code := some 0,
          stdout := none, stderr := none, error_message := none } =
      (AgentConnPool.new, none, true) :=
  ⟨C4_deadline_and_late_response.1 AgentConnPool.new 2000 (by decide),
   C4_deadline_and_late_response.2.1,
   (C4_deadline_and_late_response.2.2.1 (AgentConnPool.new.register "S1" 0)
      "S1" "c1" (by decide)).1,
   C4_deadline_and_late_response.2.2.2 AgentConnPool.new
      { correlation_id := "c9", success := true, exit_code := some 0,
        stdout := none, stderr := none, error_message := none } (by decide)⟩

/-! ## Claim C1 — disconnect and in-flight requests -/

/-- Claim C1 counterexample: sandbox S1 has two in-flight RPCs (armed
correlation ids c1 and c2, both sent via S1's connection — the only one in
the pool).  The endpoint teardown after the agent stream closes runs
`unregister`, after which BOTH slots are still armed and undisturbed: no
`PendingRequest` was failed with `AgentCommunicationError` (the teardown
delivers nothing to any waiter; the calls are left to their own deadlines). -/
theorem C1_counterexample :
    (AgentServiceImpl.connection_teardown
        { connections := [("S1", 0)], pending_requests := ["c1", "c2"],
          response_timeout_ms := 30000 } "S1").pending_requests =
      ["c1", "c2"] ∧
    (AgentServiceImpl.connection_teardown
        { connections := [("S1", 0)], pending_requests := ["c1", "c2"],
          response_timeout_ms := 30000 } "S1").connections = [] := by
  exact ⟨rfl, rfl⟩

/-- Claim C1 as amended: tearing down the agent connection (EOF or stream
error leading to `unregister`, or the explicit `unregister` during delete)
only drops the connection entry — it cancels no `PendingRequest`; every
armed correlation id stays pending, and a run call still awaiting at that
moment resolves only through its own deadline, with `ProcessTimeout`, not
`AgentCommunicationError`. -/
theorem C1_teardown_leaves_pending (pool : AgentConnPool) (sid : String) :
    (AgentServiceImpl.connection_teardown pool sid).pending_requests =
        pool.pending_requests ∧
    (AgentServiceImpl.connection_teardown pool sid).is_connected sid = false ∧
    ∀ cid, (pool.is_connected sid = true →
      (pool.run_command sid cid true .deadlineElapsed).1 =
        .error .processTimeout) := by
  refine ⟨rfl, ?_, ?_⟩
  · simp only [AgentServiceImpl.connection_teardown, AgentConnPool.unregister,
      AgentConnPool.is_connected]
    rw [List.any_eq_false]
    intro c hc
    have := List.of_mem_filter hc
    simpa using this
  · intro cid hc
    simp [AgentConnPool.run_command, hc]

/-- Claim C1 witness: the amended theorem at the two-in-flight pool — the
pending map survives teardown, connectivity is gone, and an awaiting call
that later hits its deadline gets `ProcessTimeout`. -/
theorem C1_teardown_leaves_pending_witness :
    (AgentServiceImpl.connection_teardown
        { connections := [("S1", 0)], pending_requests := ["c1", "c2"],
          response_timeout_ms := 30000 } "S1").pending_requests =
        ["c1", "c2"] ∧
    (AgentServiceImpl.connection_teardown
        { connections := [("S1", 0)], pending_requests := ["c1", "c2"],
          response_timeout_ms := 30000 } "S1").is_connected "S1" = false ∧
    (AgentConnPool.run_command
        { connections := [("S1", 0)], pending_requests := ["c1", "c2"],
          response_timeout_ms := 30000 } "S1" "c1" true .deadlineElapsed).1 =
      .error .processTimeout :=
  ⟨(C1_teardown_leaves_pending
      { connections := [("S1", 0)], pending_requests := ["c1", "c2"],
        response_timeout_ms := 30000 } "S1").1,
   (C1_teardown_leaves_pending
      { connections := [("S1", 0)], pending_requests := ["c1", "c2"],
        response_timeout_ms := 30000 } "S1").2.1,
   (C1_teardown_leaves_pending
      { connections := [("S1", 0)], pending_requests := ["c1", "c2"],
        response_timeout_ms := 30000 } "S1").2.2 "c1" (by decide)⟩

/-! ## Claim C8 — heartbeat handling at the endpoint -/

/-- Claim C8 counterexample: a registered connection for S1 whose
`last_heartbeat` reads 7.  The endpoint receives `Heartbeat{timestamp:
12345}` and replies `HeartbeatAck{12345}` — but the pool is returned exactly
as it was: `last_heartbeat` still reads 7, so `mark_heartbeat` was not
performed (the endpoint builds the ack inline and never calls into the
pool). -/
theorem C8_counterexample :
    AgentServiceImpl.handle_inbound
        { connections := [("S1", 7)], pending_requests := [],
          response_timeout_ms := 30000 } (.heartbeat 12345) =
      ({ connections := [("S1", 7)], pending_requests := [],
         response_timeout_ms := 30000 }, [.heartbeatAck 12345], none, false) := by
  exact rfl

/-- Claim C8 as amended: on every received Heartbeat the endpoint replies
with a HeartbeatAck whose timestamp equals the received one exactly, but it
does not update the connection's last-heartbeat — the pool state is
untouched.  `AgentConnPool::send_heartbeat_ack`, which would stamp
`last_heartbeat` before acking, exists but is not on this path. -/
theorem C8_heartbeat_echo_no_mark :
    (∀ (pool : AgentConnPool) (ts : Nat),
      AgentServiceImpl.handle_inbound pool (.heartbeat ts) =
        (pool, [.heartbeatAck ts], none, false)) ∧
    (∀ (pool : AgentConnPool) (sid : String) (now ts : Nat),
      pool.is_connected sid = true →
      ∃ stamped, pool.send_heartbeat_ack sid now ts true = .ok (stamped, ts) ∧
        ∀ c ∈ stamped.connections, c.1 = sid → c.2 = now) := by
  constructor
  · intro pool ts
    rfl
  · intro pool sid now ts hc
    refine ⟨{ pool with connections := pool.connections.map (fun c =>
        if c.1 = sid then (c.1, now) else c) }, ?_, ?_⟩
    · simp [AgentConnPool.send_heartbeat_ack, hc]
    · intro c hmem hcid
      rcases List.mem_map.mp hmem with ⟨c0, _, hmap⟩
      by_cases h0 : c0.1 = sid
      · rw [if_pos h0] at hmap
        rw [← hmap]
      · rw [if_neg h0] at hmap
        subst hmap
        exact absurd hcid h0

/-- Claim C8 witness: the echo-without-mark theorem at a concrete pool, and
the contrast call `send_heartbeat_ack` stamping `last_heartbeat`. -/
theorem C8_heartbeat_echo_no_mark_witness :
    AgentServiceImpl.handle_inbound
        { connections := [("S1", 7)], pending_requests := [],
          response_timeout_ms := 30000 } (.heartbeat 12345) =
      ({ connections := [("S1", 7)], pending_requests := [],
         response_timeout_ms := 30000 }, [.heartbeatAck 12345], none, false) ∧
    ∃ stamped,
      AgentConnPool.send_heartbeat_ack
          { connections := [("S1", 7)], pending_requests := [],
            response_timeout_ms := 30000 } "S1" 99 12345 true =
        .ok (stamped, 12345) ∧
      ∀ c ∈ stamped.connections, c.1 = "S1" → c.2 = 99 :=
  ⟨C8_heartbeat_echo_no_mark.1
      { connections := [("S1", 7)], pending_requests := [],
        response_timeout_ms := 30000 } 12345,
   C8_heartbeat_echo_no_mark.2
      { connections := [("S1", 7)], pending_requests := [],
        response_timeout_ms := 30000 } "S1" 99 12345 (by decide)⟩

/-! ## Claim C6 — create marks Running whether or not the agent attaches -/

/-- Claim C6: after the container starts, the orchestrator waits for the
agent under the configured budget (default 30 s; a never-connecting agent
makes the wait end in `AgentConnectionTimeout`); in both the connected and
the timed-out case the persisted transition is Starting→Running — the
written state is Running either way, the timeout case merely warns, and the
agent's absence alone never writes Error. -/
theorem C6_create_running_on_timeout :
    default_agent_timeout = 30 ∧
    (∀ polls : Nat,
      AgentConnPool.wait_for_connection (fun _ => false) polls =
        .error .agentConnectionTimeout) ∧
    (∀ (db : List SandboxRow) (sid : String) (wr : Except Error Unit),
      (SandboxService.create_after_start db sid wr).1 =
        SandboxRepository.update_state db sid .running none ∧
      ((SandboxService.create_after_start db sid wr).2 = true ↔
        ∃ e, wr = .error e)) ∧
    (∀ (db : List SandboxRow) (sid : String) (wr : Except Error Unit)
        (db' : List SandboxRow),
      (SandboxService.create_after_start db sid wr).1 = .ok db' →
      ∀ r ∈ db', r.id = sid → r.state = .running) := by
  refine ⟨rfl, ?_, ?_, ?_⟩
  · intro polls
    induction polls with
    | zero => rfl
    | succ n ih =>
        unfold AgentConnPool.wait_for_connection
        simpa using ih
  · intro db sid wr
    cases wr with
    | ok u => exact ⟨rfl, by simp [SandboxService.create_after_start]⟩
    | error e => exact ⟨rfl, by simp [SandboxService.create_after_start]⟩
  · intro db sid wr db' hok r hr hid
    have hup : SandboxRepository.update_state db sid .running none = .ok db' := by
      cases wr with
      | ok u => exact hok
      | error e => exact hok
    unfold SandboxRepository.update_state at hup
    by_cases h : (db.any fun r => r.id = sid) = true
    · rw [if_pos h] at hup
      cases hup
      rcases List.mem_map.mp hr with ⟨r0, _, hmap⟩
      by_cases h0 : r0.id = sid
      · simp only [h0, if_pos rfl] at hmap
        subst hmap
        rfl
      · simp only [if_neg h0] at hmap
        subst hmap
        exact absurd hid h0
    · rw [if_neg h] at hup
      cases hup

/-- Claim C6 witness: a wait with 3 polls against a never-connecting agent
times out; the create tail at a concrete Starting row writes Running with no
warning on success and Running with a warning on timeout. -/
theorem C6_create_running_on_timeout_witness :
    AgentConnPool.wait_for_connection (fun _ => false) 3 =
      .error .agentConnectionTimeout ∧
    (SandboxService.create_after_start
        [{ id := "S1", state := .starting, errorMessage := none }] "S1"
        (.ok ())).1 =
      SandboxRepository.update_state
        [{ id := "S1", state := .starting, errorMessage := none }] "S1"
        .running none ∧
    ((SandboxService.create_after_start
        [{ id := "S1", state := .starting, errorMessage := none }] "S1"
        (.error .agentConnectionTimeout)).2 = true ↔
      ∃ e, (Except.error e : Except Error Unit) = .error .agentConnectionTimeout) :=
  ⟨C6_create_running_on_timeout.2.1 3,
   (C6_create_running_on_timeout.2.2.1
      [{ id := "S1", state := .starting, errorMessage := none }] "S1" (.ok ())).1,
   by
    have h := (C6_create_running_on_timeout.2.2.1
      [{ id := "S1", state := .starting, errorMessage := none }] "S1"
      (.error .agentConnectionTimeout)).2
    simpa using h⟩

/-! ## Claim C7 — create_pty: defaults, capacity, and the missing ack wait -/

/-- Claim C7 counterexample: sandbox S1 is Running and connected, and the
in-sandbox PTY manager already holds 16 PTYs (its cap).  The agent-side
`create` duly rejects with "Maximum number of PTYs reached" and leaves its
map unchanged — but the server's `create_pty` call does NOT return
`PtyLimitExceeded`: it returns `Ok(PtyInfo)` with the 80×24 defaults, having
armed no pending slot (it never awaits the agent's acknowledgment, so the
rejection can never reach this caller). -/
theorem C7_counterexample :
    (PtyService.create [{ id := "S1", state := .running, errorMessage := none }]
        { connections := [("S1", 0)], pending_requests := [],
          response_timeout_ms := 30000 } "S1" "P1"
        { cols := none, rows := none, shell := none } true).1 =
      .ok { id := "P1", sandbox_id := "S1", cols := 80, rows := 24 } ∧
    (PtyService.create [{ id := "S1", state := .running, errorMessage := none }]
        { connections := [("S1", 0)], pending_requests := [],
          response_timeout_ms := 30000 } "S1" "P1"
        { cols := none, rows := none, shell := none } true).2.pending_requests =
      [] ∧
    PtyManager.create { ptys := List.replicate 16 "q", max_ptys := 16 } "P1"
        (.ok ()) =
      (.error "Maximum number of PTYs reached",
       { ptys := List.replicate 16 "q", max_ptys := 16 }) := by
  refine ⟨rfl, rfl, ?_⟩
  simp [PtyManager.create]

/-- Claim C7 as amended: `create_pty` on a Running, connected sandbox
generates a fresh UUID pty_id, defaults cols=80 and rows=24 when
unspecified, enqueues CreatePty to the agent and returns at once — it arms
nothing and does not await the agent's acknowledgment; when the in-sandbox
PTY manager is at its cap (16, as `ConnectionManager::new` configures) the
agent-side `create` fails with "Maximum number of PTYs reached" and
allocates nothing (the PTY map is unchanged), but no `PtyLimitExceeded`
reaches the server caller. -/
theorem C7_create_pty_no_ack_wait :
    (∀ (db : List SandboxRow) (pool : AgentConnPool) (sid pid : String)
        (opts : PtyOptions) (row : SandboxRow),
      (db.find? fun r => r.id = sid) = some row → row.state = .running →
      pool.is_connected sid = true →
      PtyService.create db pool sid pid opts true =
        (.ok { id := pid, sandbox_id := sid, cols := opts.cols.getD 80,
               rows := opts.rows.getD 24 }, pool)) ∧
    (∀ (m : PtyManager) (id : String) (spawn : Except String Unit),
      m.max_ptys ≤ m.ptys.length →
      PtyManager.create m id spawn =
        (.error "Maximum number of PTYs reached", m)) ∧
    (PtyManager.new 16).max_ptys = 16 := by
  refine ⟨?_, ?_, rfl⟩
  · intro db pool sid pid opts row hrow hst hc
    unfold PtyService.create
    rw [hrow]
    simp [hst, hc, AgentConnPool.create_pty]
  · intro m id spawn hcap
    unfold PtyManager.create
    rw [if_pos (by omega)]

/-- Claim C7 witness: the amended theorem at the Running/connected store and
the at-capacity manager. -/
theorem C7_create_pty_no_ack_wait_witness :
    PtyService.create [{ id := "S1", state := .running, errorMessage := none }]
        { connections := [("S1", 0)], pending_requests := [],
          response_timeout_ms := 30000 } "S1" "P1"
        { cols := none, rows := none, shell := none } true =
      (.ok { id := "P1", sandbox_id := "S1", cols := 80, rows := 24 },
       { connections := [("S1", 0)], pending_requests := [],
         response_timeout_ms := 30000 }) ∧
    PtyManager.create { ptys := List.replicate 16 "q", max_ptys := 16 } "P2"
        (.ok ()) =
      (.error "Maximum number of PTYs reached",
       { ptys := List.replicate 16 "q", max_ptys := 16 }) :=
  ⟨C7_create_pty_no_ack_wait.1
      [{ id := "S1", state := .running, errorMessage := none }]
      { connections := [("S1", 0)], pending_requests := [],
        response_timeout_ms := 30000 } "S1" "P1"
      { cols := none, rows := none, shell := none }
      { id := "S1", state := .running, errorMessage := none }
      (by decide) rfl (by decide),
   C7_create_pty_no_ack_wait.2.1
      { ptys := List.replicate 16 "q", max_ptys := 16 } "P2" (.ok ())
      (by decide)⟩

/-! ## Claim C9 — reconnect policy of the agent run loop -/

/-- Capping before doubling commutes with capping the doubled value:
`min (min a c * 2 ^ k) c = min (a * 2 ^ k) c`. -/
lemma min_mul_pow_cap (a c k : Nat) :
    min (min a c * 2 ^ k) c = min (a * 2 ^ k) c := by
  rcases le_total a c with h | h
  · rw [min_eq_left h]
  · rw [min_eq_right h]
    have h1 : c ≤ c * 2 ^ k :=
      Nat.le_mul_of_pos_right c (Nat.pos_pow_of_pos k (by omega))
    have h2 : c ≤ a * 2 ^ k :=
      le_trans h (Nat.le_trans (Nat.le_mul_of_pos_right a
        (Nat.pos_pow_of_pos k (by omega))) (Nat.mul_le_mul_right _ (le_refl a)))
    rw [min_eq_right h1, min_eq_right h2]

/-- The delays slept by the run loop over `n` consecutive failed attempts,
starting from delay `d ≤ cap`: the k-th is `min (d * 2 ^ k) cap`. -/
lemma run_replicate_err (n : Nat) :
    ∀ d : Nat, d ≤ ConnectionManager.RECONNECT_MAX_DELAY_MS →
    ConnectionManager.run
        (List.replicate n ConnectionManager.LoopEvent.attemptErr) d =
      (List.range n).map
        (fun k => min (d * 2 ^ k) ConnectionManager.RECONNECT_MAX_DELAY_MS) := by
  induction n with
  | zero => intro d _; rfl
  | succ n ih =>
      intro d hd
      rw [List.replicate_succ, List.range_succ_eq_map]
      show d :: ConnectionManager.run _ (ConnectionManager.next_reconnect_delay d) = _
      rw [List.map_cons]
      have hhead : min (d * 2 ^ 0) ConnectionManager.RECONNECT_MAX_DELAY_MS = d := by
        simpa using min_eq_left hd
      rw [hhead]
      congr 1
      rw [ih (ConnectionManager.next_reconnect_delay d) (min_le_right _ _),
        List.map_map]
      apply List.map_congr_left
      intro k _
      show min (min (d * 2) _ * 2 ^ k) _ = min (d * 2 ^ (k + 1)) _
      rw [min_mul_pow_cap, Nat.mul_assoc]
      congr 2
      rw [Nat.pow_succ]
      ring

/-- Claim C9 counterexample: the inbound stream ending cleanly (EOF) makes
`connect_and_run` return Ok, which the run loop answers by BREAKING — zero
backoff sleeps, no reconnection attempt — although the claim requires a
reconnect after backoff for EOF terminations too.  (The EOF path does abort
the heartbeat task on its way out.) -/
theorem C9_counterexample :
    ConnectionManager.run [ConnectionManager.LoopEvent.attemptEof] 1000 = [] ∧
    ConnectionManager.connect_and_run_end .attemptEof = (true, true) := by
  exact ⟨rfl, rfl⟩

/-- Claim C9 as amended: a stream ERROR makes the run loop sleep the current
backoff delay and retry, the k-th consecutive failure sleeping
`min (1 s · 2^k, 60 s)` — 1 s initially, doubled each failure, capped at
60 s and never above it; the inbound stream ending cleanly (EOF) instead
returns Ok after aborting the heartbeat task and the loop stops without
reconnecting, exactly as an external shutdown signal stops it. -/
theorem C9_reconnect_policy :
    (∀ n : Nat, ConnectionManager.run
        (List.replicate n ConnectionManager.LoopEvent.attemptErr)
        ConnectionManager.RECONNECT_INITIAL_DELAY_MS =
      (List.range n).map (fun k => min (1000 * 2 ^ k) 60000)) ∧
    (∀ d : Nat, ConnectionManager.next_reconnect_delay d ≤ 60000) ∧
    (∀ (rest : List ConnectionManager.LoopEvent) (d : Nat),
      ConnectionManager.run (.attemptEof :: rest) d = [] ∧
      ConnectionManager.run (.shutdown :: rest) d = []) ∧
    ConnectionManager.connect_and_run_end .attemptEof = (true, true) := by
  refine ⟨?_, ?_, ?_, rfl⟩
  · intro n
    exact run_replicate_err n ConnectionManager.RECONNECT_INITIAL_DELAY_MS
      (by decide)
  · intro d
    exact min_le_right _ _
  · intro rest d
    exact ⟨rfl, rfl⟩

/-! ## Claim C3 — agent reply to a spawn failure -/

/-- Claim C3, evaluated at the failing input: a `RunCommand` whose child
cannot be spawned (`cmd.spawn()` fails, e.g. for a missing binary).
`process::run_command` returns `Err` having emitted no events, but the
spawned task inside `ConnectionManager::handle_run_command` DISCARDS that
result; the collector then sees an empty channel and returns
`Ok((0, "", ""))`, so the dispatcher replies `CommandResponse.Success` with
exit code 0 — not the `CommandResponse.Error` with code 1 that the claim
(and the dispatcher's own dead Error arm) prescribe. -/
theorem C3_spawn_error_reply :
    ConnectionManager.dispatch_run_command
        (.error "No such file or directory (os error 2)") =
      .success 0 "" "" ∧
    ProcessHandler.run_command (.error "No such file or directory (os error 2)") =
      ([], .error "No such file or directory (os error 2)") := by
  exact ⟨rfl, rfl⟩

end ElevoSandbox
